import Mathlib

/-
Verification of the ue_build_automator orchestration loop.

The definitions below are a shallow embedding of src/__main__.py and the
parts of src/config_type.py that the control loop reads.  Python strings
are modelled as lists of characters, revision numbers and timestamps as
integers, and every external effect (svn queries, the build subprocess,
the 7z archiver, sounds) is either an explicit input to the modelled
function or a flag recorded in an explicit trace structure.
-/

/-- Python strings, modelled as lists of characters.  Python str.find
returning a non-negative index corresponds to infix containment. -/
abbrev Str := List Char

def strOf (s : String) : Str := s.toList

/-- Embedding of log_find_commands (src/__main__.py lines 265-275):
iterates over all configured commands and keeps those contained in the
log text (log.find(command) returning an index other than minus one). -/
def log_find_commands (all_commands : List Str) (log : Str) : List Str :=
  all_commands.filter (fun command => decide (command <:+: log))

theorem mem_log_find_commands (all_commands : List Str) (log c : Str) :
    c ∈ log_find_commands all_commands log ↔
      c ∈ all_commands ∧ c <:+: log := by
  simp [log_find_commands, List.mem_filter]

/-- Claim C5: the keyword scan over the concatenation of two log texts
equals the union of the separate scans.  This is false: a keyword can
span the boundary of the concatenation.  With the single keyword "ab",
text A = "a" and text B = "b", the scan of the concatenation finds "ab"
while the separate scans both find nothing. -/
theorem c5_counterexample :
    log_find_commands [strOf "ab"] (strOf "a" ++ strOf "b") = [strOf "ab"]
    ∧ log_find_commands [strOf "ab"] (strOf "a") = []
    ∧ log_find_commands [strOf "ab"] (strOf "b") = [] := by
  decide

/-- Claim C5 (amended): the scan is a pure function of the text and the
keyword list, and every keyword found by scanning two log texts
separately is also found when scanning their concatenation (the union of
the separate scans is contained in the scan of the concatenation; the
converse can fail when a keyword spans the boundary). -/
theorem c5_scan_union_subset_concat (all_commands : List Str) (a b c : Str)
    (h : c ∈ log_find_commands all_commands a ∨ c ∈ log_find_commands all_commands b) :
    c ∈ log_find_commands all_commands (a ++ b) := by
  rw [mem_log_find_commands]
  rcases h with h | h <;> rw [mem_log_find_commands] at h <;> refine ⟨h.1, ?_⟩
  · obtain ⟨s, t, hst⟩ := h.2
    exact ⟨s, t ++ b, by rw [← hst]; simp⟩
  · obtain ⟨s, t, hst⟩ := h.2
    exact ⟨a ++ s, t, by rw [← hst]; simp⟩

theorem c5_scan_union_subset_concat_witness :
    strOf "x" ∈ log_find_commands [strOf "x"] (strOf "xy" ++ strOf "z") :=
  c5_scan_union_subset_concat [strOf "x"] (strOf "xy") (strOf "z") (strOf "x")
    (Or.inl (by decide))

/-- A filesystem path, modelled as the parent directory plus the base
name (pathlib Path.parent and Path.name). -/
structure FPath where
  dir : Str
  base : Str
deriving DecidableEq, Repr

def dotZip : Str := strOf ".zip"

/-- Name of the zip produced by _compact_file: the source base name plus
".zip", replaced by new_name plus ".zip" when new_name is a non-empty
string (Python truthiness of the str argument). -/
def compact_zip_name (file_path : FPath) (new_name : Option Str) : Str :=
  match new_name with
  | some n => if n = [] then file_path.base ++ dotZip else n ++ dotZip
  | none => file_path.base ++ dotZip

/-- Output directory used by _compact_file: the parent of the source
directory unless an explicit output_path is given. -/
def compact_out_path (file_path : FPath) (output_path : Option Str) : Str :=
  match output_path with
  | some p => p
  | none => file_path.dir

def compact_zip_path (file_path : FPath) (new_name : Option Str)
    (output_path : Option Str) : FPath :=
  ⟨compact_out_path file_path output_path, compact_zip_name file_path new_name⟩

/-- Result and effect record of one _compact_file call. -/
structure CompactResult where
  result : Option FPath
  unlinked : Bool
  sevenZipInvoked : Bool
deriving DecidableEq, Repr

/-- Embedding of _compact_file (src/__main__.py lines 281-316).  The
filesystem state is an input: srcExists and srcIsDir describe file_path,
zipExists tells which paths hold an existing file before the call.  The
run result of the 7z subprocess on line 314 is discarded by the source,
so its exit status does not appear in this definition at all. -/
def _compact_file (file_path : FPath) (srcExists srcIsDir : Bool)
    (should_override : Bool) (new_name : Option Str) (output_path : Option Str)
    (zipExists : FPath → Bool) : CompactResult :=
  if !srcExists then ⟨none, false, false⟩
  else if !srcIsDir then ⟨none, false, false⟩
  else
    let zip_path : FPath := compact_zip_path file_path new_name output_path
    if zipExists zip_path then
      if !should_override then ⟨some zip_path, false, false⟩
      else ⟨some zip_path, true, true⟩
    else ⟨some zip_path, false, true⟩

/-- Effect record of one build_compact call. -/
structure BuildCompactTrace where
  compactTarget : Option FPath
  sevenZipInvoked : Bool
  renamed : Bool
  renameTarget : Option FPath
deriving DecidableEq, Repr

def transferingSuffix : Str := strOf " TRANSFERING..."

/-- Embedding of build_compact (src/__main__.py lines 341-351).
sevenZipExit is the exit status of the 7z subprocess and
tempZipExistsAfter tells whether the temporary zip exists on disk after
a 7z invocation (7z can leave a partial archive behind when it fails).
The source checks only compacted_file.exists() before renaming: when 7z
was not invoked the zip pre-existed and was not deleted, so it still
exists; when 7z was invoked, existence is whatever the invocation left
behind.  Every zip name ends in ".zip", so Path.suffix in the rename on
line 348 is ".zip". -/
def build_compact (export_output : Str) (override_zip : Bool)
    (build : FPath) (buildExists buildIsDir : Bool) (new_build_name : Str)
    (zipExists : FPath → Bool) (sevenZipExit : Int) (tempZipExistsAfter : Bool) :
    BuildCompactTrace :=
  let _ := sevenZipExit
  let temp_name := new_build_name ++ transferingSuffix
  let c := _compact_file build buildExists buildIsDir override_zip
    (some temp_name) (some export_output) zipExists
  match c.result with
  | none => ⟨none, c.sevenZipInvoked, false, none⟩
  | some zp =>
    let existsNow := if c.sevenZipInvoked then tempZipExistsAfter else true
    if existsNow then
      ⟨some zp, c.sevenZipInvoked, true, some ⟨zp.dir, new_build_name ++ dotZip⟩⟩
    else ⟨some zp, c.sevenZipInvoked, false, none⟩

/-- Claim C4: rename to the final name happens only after the archiving
subprocess reports success.  This is false: the source never reads the
7z exit status; it renames whenever the temporary archive file exists.
Concretely, with a 7z run that exits with status 1 but leaves the
(partial) temporary archive on disk, the final name is still created by
rename. -/
theorem c4_counterexample :
    (build_compact (strOf "out") false ⟨strOf "bin", strOf "Windows"⟩ true true
        (strOf "B") (fun _ => false) 1 true).renamed = true
    ∧ (build_compact (strOf "out") false ⟨strOf "bin", strOf "Windows"⟩ true true
        (strOf "B") (fun _ => false) 1 true).renameTarget =
      some ⟨strOf "out", strOf "B" ++ dotZip⟩
    ∧ (1 : Int) ≠ 0 := by
  decide

/-- Claim C4 (amended): the archive is produced under a temporary name
(the final name plus a TRANSFERING marker) and is renamed to the final
name exactly when the temporary archive file exists after the
compression step; the outcome is independent of the exit status the
compression subprocess reports. -/
theorem c4_temp_name_rename_on_existence (export_output : Str)
    (override_zip : Bool) (build : FPath) (new_build_name : Str)
    (zipExists : FPath → Bool) (e1 e2 : Int) (t : Bool) :
    (build_compact export_output override_zip build true true new_build_name
        zipExists e1 t).compactTarget =
      some ⟨export_output, new_build_name ++ transferingSuffix ++ dotZip⟩
    ∧ (build_compact export_output override_zip build true true new_build_name
        zipExists e1 t).renamed =
      (if (build_compact export_output override_zip build true true
          new_build_name zipExists e1 t).sevenZipInvoked then t else true)
    ∧ build_compact export_output override_zip build true true new_build_name
        zipExists e1 t =
      build_compact export_output override_zip build true true new_build_name
        zipExists e2 t := by
  have hname : compact_zip_name build (some (new_build_name ++ transferingSuffix))
      = new_build_name ++ transferingSuffix ++ dotZip := by
    simp [compact_zip_name, transferingSuffix, strOf]
  cases h : zipExists ⟨export_output, new_build_name ++ (transferingSuffix ++ dotZip)⟩ <;>
    cases override_zip <;> cases t <;>
      simp [build_compact, _compact_file, compact_zip_path, compact_out_path, hname, h]

theorem c4_temp_name_rename_on_existence_witness :
    (build_compact (strOf "out") false ⟨strOf "bin", strOf "W"⟩ true true
        (strOf "B") (fun _ => false) 0 true).compactTarget =
      some ⟨strOf "out", strOf "B" ++ transferingSuffix ++ dotZip⟩ :=
  (c4_temp_name_rename_on_existence (strOf "out") false ⟨strOf "bin", strOf "W"⟩
    (strOf "B") (fun _ => false) 0 0 true).1

/-- Claim C8: archiving is idempotent when override is false.  When the
target zip already exists, a second _compact_file call returns the same
path as the first call did, deletes nothing and does not invoke the 7z
subprocess again. -/
theorem c8_archive_idempotent_no_override (file_path : FPath)
    (new_name : Option Str) (output_path : Option Str)
    (fs1 fs2 : FPath → Bool)
    (h : fs2 (compact_zip_path file_path new_name output_path) = true) :
    (_compact_file file_path true true false new_name output_path fs2).result =
      (_compact_file file_path true true false new_name output_path fs1).result
    ∧ (_compact_file file_path true true false new_name output_path fs2).unlinked
      = false
    ∧ (_compact_file file_path true true false new_name output_path
        fs2).sevenZipInvoked = false := by
  cases h1 : fs1 (compact_zip_path file_path new_name output_path) <;>
    simp [_compact_file, h, h1]

theorem c8_archive_idempotent_no_override_witness :
    (_compact_file ⟨strOf "bin", strOf "W"⟩ true true false none none
        (fun _ => true)).result =
      (_compact_file ⟨strOf "bin", strOf "W"⟩ true true false none none
        (fun _ => false)).result :=
  (c8_archive_idempotent_no_override ⟨strOf "bin", strOf "W"⟩ none none
    (fun _ => false) (fun _ => true) (by decide)).1

/-- Outcome classification of a build run (UnrealBuildResponse,
src/__main__.py lines 164-167). -/
inductive UnrealBuildResponse where
  | SUCCESS
  | FAILED
  | UNEXPECTED_ERROR
deriving DecidableEq, Repr

/-- Behaviour of one run of the external automation tool: either the
child process runs to completion with an exit code, or an exception is
raised while launching or communicating with it. -/
inductive BuildRun where
  | exited (code : Int)
  | raised
deriving DecidableEq, Repr

/-- Embedding of unreal_build_project (lines 169-200): exit code 0 maps
to SUCCESS, any other exit code to FAILED, an exception during the run
to UNEXPECTED_ERROR. -/
def unreal_build_project (run : BuildRun) : UnrealBuildResponse :=
  match run with
  | .exited code => if code ≠ 0 then .FAILED else .SUCCESS
  | .raised => .UNEXPECTED_ERROR

def intToStr (i : Int) : Str := (toString i).toList

/-- The archive name template of line 380:
the revision in square brackets, the project file name, then the build
type in parentheses. -/
def buildArchiveName (revision_num : Int) (filename build_type : Str) : Str :=
  strOf "[" ++ intToStr revision_num ++ strOf "] " ++ filename
    ++ strOf " (" ++ build_type ++ strOf ")"

/-- Effect record of one build_dump_logs_and_compact call. -/
structure BuildStepTrace where
  startCueFired : Bool
  buildInvoked : Bool
  buildTypeUsed : Str
  unknownErrorCue : Bool
  failCue : Bool
  logDumped : Bool
  compactInvoked : Bool
  archiveName : Option Str
  success : Bool
deriving DecidableEq, Repr

/-- Embedding of build_dump_logs_and_compact (lines 357-382): announce
the start, run the build, branch on the outcome; on success dump the
collected logs when there are any and compact the build under the
templated archive name. -/
def build_dump_logs_and_compact (project_filename build_type : Str)
    (logs : List Str) (revision_num : Int) (run : BuildRun) : BuildStepTrace :=
  match unreal_build_project run with
  | .UNEXPECTED_ERROR =>
    ⟨true, true, build_type, true, false, false, false, none, false⟩
  | .FAILED =>
    ⟨true, true, build_type, false, true, false, false, none, false⟩
  | .SUCCESS =>
    let new_build_name := buildArchiveName revision_num project_filename build_type
    ⟨true, true, build_type, false, false, decide (0 < logs.length), true,
      some new_build_name, true⟩

/-- The configuration fields read by the control loop, projected from
BuildAutomatorConfig (src/config_type.py).  build_type is loop state as
well as configuration: line 468 of src/__main__.py assigns to
config.uat.build_type in place, so the mutation lives as long as the
config object does. -/
structure Config where
  valid : Bool
  cleanup_timeout : Int
  update_interval : Int
  max_num_relevant_logs : Int
  build_type : Str
  make_dev_build : Str
  ignore_build : Str
  project_filename : Str
deriving DecidableEq, Repr

/-- all_commands (src/config_type.py lines 342-347): the two keyword
literals, in this order. -/
def Config.all_commands (c : Config) : List Str :=
  [c.make_dev_build, c.ignore_build]

/-- The loop-carried state of _run (lines 386-389): the held config
snapshot, the watermark and the last cleanup stamp, with -1 as the
unset sentinel for both numbers. -/
structure LoopState where
  config : Config
  last_built_revision : Int
  last_cleanup_time : Int
deriving DecidableEq, Repr

/-- The external world as observed during one loop iteration: the
config reload result, the wall clock, and the responses the svn binary,
the log queries and the build subprocess would give. -/
structure IterInput where
  new_config : Option Config
  now : Int
  cleanup_ok : Bool
  svn_changed : Bool
  current_revision : Int
  svn_log : Int → Str
  build_run : BuildRun

/-- Effect record of the change-handling block (lines 436-494). -/
structure ChangeTrace where
  logRange : Option (Int × Int)
  logsFetched : List Int
  preDumped : Bool
  ignoreCue : Bool
  buildStep : Option BuildStepTrace
  successCue : Bool
deriving DecidableEq, Repr

/-- Effect record of one whole loop iteration. -/
structure IterTrace where
  backoffRetry : Bool
  cleanupRan : Bool
  cleanupFailCue : Bool
  updateInvoked : Bool
  change : Option ChangeTrace
deriving DecidableEq, Repr

/-- Embedding of the command loop (lines 466-473): for each found
command, the make_dev_build branch switches the build type, otherwise
the ignore_build branch raises the ignore flag.  Returns the pair
(devSwitch, ignore). -/
def evalCommands (make_dev ignore_kw : Str) (found : List Str) : Bool × Bool :=
  found.foldl
    (fun acc command =>
      if command = make_dev then (true, acc.2)
      else if command = ignore_kw then (acc.1, true)
      else acc)
    (false, false)

/-- The revisions visited by range(revision_start, revision_end + 1)
on line 456, in iteration order. -/
def intRangeList (s e : Int) : List Int :=
  (List.range (e + 1 - s).toNat).map (fun (i : Nat) => s + (i : Int))

/-- num_revisions_betwen_last_and_new of line 438. -/
def numRevisions (max_logs current w : Int) : Int :=
  max 0 (min max_logs (current - w))

/-- revision_start of line 448. -/
def revisionStart (max_logs current w : Int) : Int :=
  current - max 0 (numRevisions max_logs current w - 1)

/-- The guard of the log-collection block on line 443. -/
def collectLogs (max_logs current w : Int) : Bool :=
  decide (0 < max_logs) && decide (0 < numRevisions max_logs current w)

/-- The revisions whose logs the iteration fetches (lines 443-464):
the ascending range from revision_start to the current revision when
the log-collection guard holds, nothing otherwise. -/
def dispatchFetched (cfg : Config) (w : Int) (inp : IterInput) : List Int :=
  if collectLogs cfg.max_num_relevant_logs inp.current_revision w then
    intRangeList (revisionStart cfg.max_num_relevant_logs inp.current_revision w)
      inp.current_revision
  else []

/-- found_commands accumulated over the fetched logs (lines 453-460). -/
def dispatchFound (cfg : Config) (w : Int) (inp : IterInput) : List Str :=
  (dispatchFetched cfg w inp).flatMap
    (fun r => log_find_commands cfg.all_commands (inp.svn_log r))

/-- The (devSwitch, ignore) flags the command loop derives. -/
def dispatchFlags (cfg : Config) (w : Int) (inp : IterInput) : Bool × Bool :=
  evalCommands cfg.make_dev_build cfg.ignore_build (dispatchFound cfg w inp)

/-- Embedding of the change-handling block of _run (lines 436-494),
entered when svn_update reported a change.  w is the watermark after
the first-sync initialization on lines 433-434 and lct the cleanup
stamp carried into the rest of the iteration. -/
def changeDispatch (cfg : Config) (w lct : Int) (inp : IterInput) :
    LoopState × ChangeTrace :=
  let current := inp.current_revision
  let fetched := dispatchFetched cfg w inp
  let logs := fetched.map inp.svn_log
  let flags := dispatchFlags cfg w inp
  let config2 := if flags.1 then { cfg with build_type := strOf "Development" } else cfg
  let range := if collectLogs cfg.max_num_relevant_logs current w then
      some (revisionStart cfg.max_num_relevant_logs current w, current)
    else none
  let preDumped := decide (0 < logs.length)
  if flags.2 then
    (⟨config2, current, lct⟩, ⟨range, fetched, preDumped, true, none, true⟩)
  else
    let bs := build_dump_logs_and_compact config2.project_filename config2.build_type
      logs w inp.build_run
    (⟨config2, current, lct⟩, ⟨range, fetched, preDumped, false, some bs, bs.success⟩)

/-- The build type the iteration hands to the build tool: the dev
override when the dev keyword was found, the configured type otherwise. -/
def effBuildType (cfg : Config) (w : Int) (inp : IterInput) : Str :=
  if (dispatchFlags cfg w inp).1 then strOf "Development" else cfg.build_type

/-- Result of the config reload step (lines 398-410): none when both
the newly loaded config and the previously held one are invalid (the
loop sleeps ten seconds and restarts the iteration), otherwise the
config used for the rest of the iteration. -/
def reloadConfig (cur : Config) (nc : Option Config) : Option Config :=
  match nc with
  | some c => if c.valid then some c else (if cur.valid then some cur else none)
  | none => if cur.valid then some cur else none

/-- cleanup_time_difference of line 417. -/
def cleanupDiff (last_cleanup_time now : Int) : Int :=
  if last_cleanup_time ≠ -1 then now - last_cleanup_time else 0

/-- Whether the check on line 419 decides to run svn cleanup. -/
def cleanupDue (last_cleanup_time now timeout : Int) : Bool :=
  decide (last_cleanup_time = -1)
    || decide (cleanupDiff last_cleanup_time now ≥ timeout)

/-- One pass of the _run loop body (lines 391-496), with every external
response supplied through inp.  Returns the successor state and the
trace of observable actions.  Iterations in which the svn queries raise
are caught by the top-level handler and leave the state unchanged; the
claims quantify over iterations in which they return, which is what
this function models. -/
def runIteration (st : LoopState) (inp : IterInput) : LoopState × IterTrace :=
  match reloadConfig st.config inp.new_config with
  | none => (st, ⟨true, false, false, false, none⟩)
  | some config =>
    let due := cleanupDue st.last_cleanup_time inp.now config.cleanup_timeout
    if due && !inp.cleanup_ok then
      (⟨config, st.last_built_revision, st.last_cleanup_time⟩,
        ⟨false, true, true, false, none⟩)
    else
      let lct := if due then inp.now else st.last_cleanup_time
      let current := inp.current_revision
      let w := if st.last_built_revision = -1 then current else st.last_built_revision
      if inp.svn_changed then
        let r := changeDispatch config w lct inp
        (r.1, ⟨false, due, false, true, some r.2⟩)
      else
        (⟨config, w, lct⟩, ⟨false, due, false, true, none⟩)

theorem mem_intRangeList (s e r : Int) : r ∈ intRangeList s e ↔ s ≤ r ∧ r ≤ e := by
  simp only [intRangeList, List.mem_map, List.mem_range]
  constructor
  · rintro ⟨i, hi, rfl⟩
    omega
  · rintro ⟨h1, h2⟩
    exact ⟨(r - s).toNat, by omega, by omega⟩

theorem intRangeList_pairwise (s e : Int) : (intRangeList s e).Pairwise (· < ·) :=
  (List.pairwise_lt_range _).map _ (fun a b h => by omega)

theorem evalCommands_foldl (make_dev ignore_kw : Str) (found : List Str)
    (a : Bool × Bool) :
    found.foldl
      (fun acc command =>
        if command = make_dev then (true, acc.2)
        else if command = ignore_kw then (acc.1, true)
        else acc) a
    = (a.1 || decide (make_dev ∈ found),
       a.2 || (decide (ignore_kw ∈ found) && !decide (ignore_kw = make_dev))) := by
  induction found generalizing a with
  | nil => simp
  | cons c tl ih =>
    by_cases h1 : c = make_dev
    · subst h1
      simp only [List.foldl_cons, if_pos rfl, ih, List.mem_cons]
      by_cases h2 : ignore_kw = c <;> simp [h2]
    · by_cases h2 : c = ignore_kw
      · subst h2
        simp only [List.foldl_cons, if_neg h1, if_pos rfl, ih, List.mem_cons]
        simp [Ne.symm h1, eq_comm, h1]
      · simp only [List.foldl_cons, if_neg h1, if_neg h2, ih, List.mem_cons]
        simp [Ne.symm h1, Ne.symm h2, h1, h2]

theorem evalCommands_fst_iff (make_dev ignore_kw : Str) (found : List Str) :
    (evalCommands make_dev ignore_kw found).1 = true ↔ make_dev ∈ found := by
  simp [evalCommands, evalCommands_foldl]

theorem evalCommands_snd_iff (make_dev ignore_kw : Str) (found : List Str) :
    (evalCommands make_dev ignore_kw found).2 = true ↔
      ignore_kw ∈ found ∧ ignore_kw ≠ make_dev := by
  simp [evalCommands, evalCommands_foldl]

/-- Bridge: one iteration that passed the reload step, the cleanup step
and detected a change is the change-handling block applied to the
effective watermark and cleanup stamp. -/
theorem runIteration_changed (st : LoopState) (inp : IterInput) (cfg : Config)
    (hr : reloadConfig st.config inp.new_config = some cfg)
    (hcl : (cleanupDue st.last_cleanup_time inp.now cfg.cleanup_timeout
      && !inp.cleanup_ok) = false)
    (hch : inp.svn_changed = true) :
    runIteration st inp =
      ((changeDispatch cfg
          (if st.last_built_revision = -1 then inp.current_revision
            else st.last_built_revision)
          (if cleanupDue st.last_cleanup_time inp.now cfg.cleanup_timeout then inp.now
            else st.last_cleanup_time) inp).1,
        ⟨false, cleanupDue st.last_cleanup_time inp.now cfg.cleanup_timeout, false, true,
          some (changeDispatch cfg
            (if st.last_built_revision = -1 then inp.current_revision
              else st.last_built_revision)
            (if cleanupDue st.last_cleanup_time inp.now cfg.cleanup_timeout then inp.now
              else st.last_cleanup_time) inp).2⟩) := by
  simp [runIteration, hr, hcl, hch]

theorem changeDispatch_watermark (cfg : Config) (w lct : Int) (inp : IterInput) :
    (changeDispatch cfg w lct inp).1.last_built_revision = inp.current_revision := by
  simp only [changeDispatch]
  split <;> rfl

theorem changeDispatch_buildStep_eq (cfg : Config) (w lct : Int) (inp : IterInput)
    (hig : (dispatchFlags cfg w inp).2 = false) :
    (changeDispatch cfg w lct inp).2.buildStep =
      some (build_dump_logs_and_compact cfg.project_filename (effBuildType cfg w inp)
        ((dispatchFetched cfg w inp).map inp.svn_log) w inp.build_run)
    ∧ (changeDispatch cfg w lct inp).2.successCue =
      (build_dump_logs_and_compact cfg.project_filename (effBuildType cfg w inp)
        ((dispatchFetched cfg w inp).map inp.svn_log) w inp.build_run).success := by
  unfold changeDispatch effBuildType
  cases hd : (dispatchFlags cfg w inp).1 <;> simp [hd, hig]

theorem changeDispatch_ignored (cfg : Config) (w lct : Int) (inp : IterInput)
    (hig : (dispatchFlags cfg w inp).2 = true) :
    (changeDispatch cfg w lct inp).2.buildStep = none
    ∧ (changeDispatch cfg w lct inp).2.ignoreCue = true
    ∧ (changeDispatch cfg w lct inp).2.successCue = true := by
  simp [changeDispatch, hig]

theorem changeDispatch_range (cfg : Config) (w lct : Int) (inp : IterInput)
    (hpos : 0 < cfg.max_num_relevant_logs) (hlt : w < inp.current_revision) :
    (changeDispatch cfg w lct inp).2.logRange =
      some (max (w + 1) (inp.current_revision - cfg.max_num_relevant_logs + 1),
        inp.current_revision)
    ∧ (changeDispatch cfg w lct inp).2.logsFetched =
      intRangeList (max (w + 1) (inp.current_revision - cfg.max_num_relevant_logs + 1))
        inp.current_revision := by
  have hstart : revisionStart cfg.max_num_relevant_logs inp.current_revision w
      = max (w + 1) (inp.current_revision - cfg.max_num_relevant_logs + 1) := by
    unfold revisionStart numRevisions
    omega
  have hcoll : collectLogs cfg.max_num_relevant_logs inp.current_revision w = true := by
    unfold collectLogs numRevisions
    simp only [Bool.and_eq_true, decide_eq_true_eq]
    omega
  simp only [changeDispatch]
  split <;> simp [dispatchFetched, hcoll, hstart]

theorem mem_dispatchFound (cfg : Config) (w : Int) (inp : IterInput) (c : Str) :
    c ∈ dispatchFound cfg w inp ↔
      ∃ r, r ∈ dispatchFetched cfg w inp ∧ c ∈ cfg.all_commands ∧ c <:+: inp.svn_log r := by
  simp [dispatchFound, List.mem_flatMap, mem_log_find_commands]

/-- A concrete valid configuration used to instantiate the theorems:
default keywords and defaults from src/config_type.py. -/
def cfgS : Config :=
  ⟨true, 3600, 1, 10, strOf "Shipping", strOf "#devbuild", strOf "#ignorebuild",
    strOf "Proj"⟩

/-- Claim C9: when cleanup runs and fails, the audible alert fires and
the rest of the iteration is skipped: svn update is never invoked, no
change handling or build happens, and the watermark and the cleanup
stamp are both left unchanged by the iteration. -/
theorem c9_cleanup_failure_skips_iteration (st : LoopState) (inp : IterInput)
    (cfg : Config)
    (hr : reloadConfig st.config inp.new_config = some cfg)
    (hdue : cleanupDue st.last_cleanup_time inp.now cfg.cleanup_timeout = true)
    (hfail : inp.cleanup_ok = false) :
    (runIteration st inp).2.cleanupFailCue = true
    ∧ (runIteration st inp).2.updateInvoked = false
    ∧ (runIteration st inp).2.change = none
    ∧ (runIteration st inp).1.last_built_revision = st.last_built_revision
    ∧ (runIteration st inp).1.last_cleanup_time = st.last_cleanup_time := by
  simp [runIteration, hr, hdue, hfail]

theorem c9_cleanup_failure_skips_iteration_witness :
    (runIteration ⟨cfgS, 100, -1⟩
      ⟨some cfgS, 10, false, true, 101, fun _ => [], .exited 0⟩).2.cleanupFailCue = true
    ∧ (runIteration ⟨cfgS, 100, -1⟩
      ⟨some cfgS, 10, false, true, 101, fun _ => [], .exited 0⟩).1.last_built_revision
      = 100 :=
  ⟨(c9_cleanup_failure_skips_iteration ⟨cfgS, 100, -1⟩
      ⟨some cfgS, 10, false, true, 101, fun _ => [], .exited 0⟩ cfgS
      (by decide) (by decide) rfl).1,
    (c9_cleanup_failure_skips_iteration ⟨cfgS, 100, -1⟩
      ⟨some cfgS, 10, false, true, 101, fun _ => [], .exited 0⟩ cfgS
      (by decide) (by decide) rfl).2.2.2.1⟩

/-- Claim C2: an iteration that passes reload and cleanup, detects a
change with a positive log cap, and holds a settled watermark below the
current revision computes the revision range
(max(watermark+1, current - max_logs + 1), current); its bounds satisfy
start ≤ end and end - start + 1 ≤ max_num_relevant_logs, and the logs
are fetched for exactly the revisions of that range in ascending
order. -/
theorem c2_revision_range (st : LoopState) (inp : IterInput) (cfg : Config)
    (hr : reloadConfig st.config inp.new_config = some cfg)
    (hcl : (cleanupDue st.last_cleanup_time inp.now cfg.cleanup_timeout
      && !inp.cleanup_ok) = false)
    (hch : inp.svn_changed = true)
    (hpos : 0 < cfg.max_num_relevant_logs)
    (hw : st.last_built_revision ≠ -1)
    (hlt : st.last_built_revision < inp.current_revision) :
    ∃ ct, (runIteration st inp).2.change = some ct
      ∧ ct.logRange = some (max (st.last_built_revision + 1)
          (inp.current_revision - cfg.max_num_relevant_logs + 1), inp.current_revision)
      ∧ max (st.last_built_revision + 1)
          (inp.current_revision - cfg.max_num_relevant_logs + 1) ≤ inp.current_revision
      ∧ inp.current_revision
          - max (st.last_built_revision + 1)
            (inp.current_revision - cfg.max_num_relevant_logs + 1) + 1
        ≤ cfg.max_num_relevant_logs
      ∧ ct.logsFetched = intRangeList (max (st.last_built_revision + 1)
          (inp.current_revision - cfg.max_num_relevant_logs + 1)) inp.current_revision
      ∧ ct.logsFetched.Pairwise (· < ·)
      ∧ (∀ r : Int, r ∈ ct.logsFetched ↔
          max (st.last_built_revision + 1)
            (inp.current_revision - cfg.max_num_relevant_logs + 1) ≤ r
          ∧ r ≤ inp.current_revision) := by
  rw [runIteration_changed st inp cfg hr hcl hch]
  simp only [if_neg hw]
  obtain ⟨h1, h2⟩ := changeDispatch_range cfg st.last_built_revision
    (if cleanupDue st.last_cleanup_time inp.now cfg.cleanup_timeout then inp.now
      else st.last_cleanup_time) inp hpos hlt
  refine ⟨_, rfl, h1, by omega, by omega, h2, ?_, ?_⟩
  · rw [h2]
    exact intRangeList_pairwise _ _
  · intro r
    rw [h2]
    exact mem_intRangeList _ _ r

theorem c2_revision_range_witness :
    ∃ ct, (runIteration ⟨cfgS, 100, 5⟩
        ⟨some cfgS, 10, true, true, 103, fun _ => [], .exited 0⟩).2.change = some ct
      ∧ ct.logRange = some (101, 103)
      ∧ ct.logsFetched = [101, 102, 103] := by
  obtain ⟨ct, h1, h2, -, -, h5, -, -⟩ := c2_revision_range ⟨cfgS, 100, 5⟩
    ⟨some cfgS, 10, true, true, 103, fun _ => [], .exited 0⟩ cfgS
    (by decide) (by decide) rfl (by decide) (by decide) (by decide)
  refine ⟨ct, h1, ?_, ?_⟩
  · rw [h2]; decide
  · rw [h5]; decide

theorem changeDispatch_raised (cfg : Config) (w lct : Int) (inp : IterInput)
    (bs : BuildStepTrace)
    (hbs : (changeDispatch cfg w lct inp).2.buildStep = some bs)
    (hrun : inp.build_run = .raised) :
    bs.unknownErrorCue = true ∧ bs.success = false ∧ bs.buildInvoked = true
    ∧ (changeDispatch cfg w lct inp).2.successCue = false := by
  cases hig : (dispatchFlags cfg w inp).2
  · obtain ⟨h1, h2⟩ := changeDispatch_buildStep_eq cfg w lct inp hig
    rw [h1] at hbs
    simp only [Option.some.injEq] at hbs
    subst hbs
    simp [build_dump_logs_and_compact, unreal_build_project, hrun, h2]
  · simp [(changeDispatch_ignored cfg w lct inp hig).1] at hbs

theorem changeDispatch_failed (cfg : Config) (w lct : Int) (inp : IterInput)
    (bs : BuildStepTrace) (code : Int)
    (hbs : (changeDispatch cfg w lct inp).2.buildStep = some bs)
    (hrun : inp.build_run = .exited code) (hcode : code ≠ 0) :
    bs.failCue = true ∧ bs.success = false ∧ bs.compactInvoked = false
    ∧ bs.archiveName = none
    ∧ (changeDispatch cfg w lct inp).2.successCue = false := by
  cases hig : (dispatchFlags cfg w inp).2
  · obtain ⟨h1, h2⟩ := changeDispatch_buildStep_eq cfg w lct inp hig
    rw [h1] at hbs
    simp only [Option.some.injEq] at hbs
    subst hbs
    simp [build_dump_logs_and_compact, unreal_build_project, hrun, hcode, h2]
  · simp [(changeDispatch_ignored cfg w lct inp hig).1] at hbs

theorem changeDispatch_success (cfg : Config) (w lct : Int) (inp : IterInput)
    (bs : BuildStepTrace)
    (hbs : (changeDispatch cfg w lct inp).2.buildStep = some bs)
    (hrun : inp.build_run = .exited 0) :
    bs.archiveName = some (buildArchiveName w cfg.project_filename bs.buildTypeUsed)
    ∧ bs.buildTypeUsed = effBuildType cfg w inp
    ∧ bs.success = true ∧ bs.compactInvoked = true := by
  cases hig : (dispatchFlags cfg w inp).2
  · obtain ⟨h1, h2⟩ := changeDispatch_buildStep_eq cfg w lct inp hig
    rw [h1] at hbs
    simp only [Option.some.injEq] at hbs
    subst hbs
    simp [build_dump_logs_and_compact, unreal_build_project, hrun]
  · simp [(changeDispatch_ignored cfg w lct inp hig).1] at hbs

/-- Claim C1: an iteration whose build attempt reports UNEXPECTED_ERROR
leaves the watermark unchanged.  This is false: _run advances the
watermark to current_revision whenever build_dump_logs_and_compact
returns False, which covers UNEXPECTED_ERROR exactly as it covers
FAILED (lines 483-485).  At the concrete iteration below the build
raises, the unknown-error cue fires, and the watermark still moves
from 100 to the current revision 101. -/
theorem c1_counterexample :
    (runIteration ⟨cfgS, 100, 5⟩
        ⟨some cfgS, 10, true, true, 101, fun _ => [], .raised⟩).1.last_built_revision
      = 101
    ∧ ((runIteration ⟨cfgS, 100, 5⟩
        ⟨some cfgS, 10, true, true, 101, fun _ => [], .raised⟩).2.change.bind
          ChangeTrace.buildStep).map BuildStepTrace.unknownErrorCue = some true := by
  decide

/-- Claim C1 (amended): an iteration whose build attempt reports
UNEXPECTED_ERROR announces it distinctly (unknown-error cue, no success
cue) and advances the watermark to current_revision, exactly as on the
FAILED path. -/
theorem c1_unexpected_error_advances_watermark (st : LoopState) (inp : IterInput)
    (cfg : Config) (bs : BuildStepTrace)
    (hr : reloadConfig st.config inp.new_config = some cfg)
    (hcl : (cleanupDue st.last_cleanup_time inp.now cfg.cleanup_timeout
      && !inp.cleanup_ok) = false)
    (hch : inp.svn_changed = true)
    (hbs : ((runIteration st inp).2.change.bind ChangeTrace.buildStep) = some bs)
    (hrun : inp.build_run = .raised) :
    bs.unknownErrorCue = true ∧ bs.success = false
    ∧ (runIteration st inp).1.last_built_revision = inp.current_revision := by
  rw [runIteration_changed st inp cfg hr hcl hch] at hbs ⊢
  simp only [Option.some_bind] at hbs
  obtain ⟨h1, h2, -, -⟩ := changeDispatch_raised _ _ _ _ _ hbs hrun
  exact ⟨h1, h2, changeDispatch_watermark _ _ _ _⟩

theorem c1_unexpected_error_advances_watermark_witness :
    (runIteration ⟨cfgS, 100, 5⟩
        ⟨some cfgS, 10, true, true, 101, fun _ => [], .raised⟩).1.last_built_revision
      = 101 :=
  (c1_unexpected_error_advances_watermark ⟨cfgS, 100, 5⟩
    ⟨some cfgS, 10, true, true, 101, fun _ => [], .raised⟩ cfgS
    ⟨true, true, strOf "Shipping", true, false, false, false, none, false⟩
    (by decide) (by decide) rfl (by decide) rfl).2.2

/-- Claim C7: an iteration whose build process exits with a non-zero
code has outcome FAILED, fires the fail cue, produces no archive, does
not fire the success cue, and advances the watermark to the then
current revision. -/
theorem c7_failed_build (st : LoopState) (inp : IterInput)
    (cfg : Config) (bs : BuildStepTrace) (code : Int)
    (hr : reloadConfig st.config inp.new_config = some cfg)
    (hcl : (cleanupDue st.last_cleanup_time inp.now cfg.cleanup_timeout
      && !inp.cleanup_ok) = false)
    (hch : inp.svn_changed = true)
    (hbs : ((runIteration st inp).2.change.bind ChangeTrace.buildStep) = some bs)
    (hrun : inp.build_run = .exited code) (hcode : code ≠ 0) :
    unreal_build_project inp.build_run = .FAILED
    ∧ bs.failCue = true ∧ bs.success = false
    ∧ bs.compactInvoked = false ∧ bs.archiveName = none
    ∧ (runIteration st inp).1.last_built_revision = inp.current_revision := by
  rw [runIteration_changed st inp cfg hr hcl hch] at hbs ⊢
  simp only [Option.some_bind] at hbs
  obtain ⟨h1, h2, h3, h4, -⟩ := changeDispatch_failed _ _ _ _ _ code hbs hrun hcode
  refine ⟨?_, h1, h2, h3, h4, changeDispatch_watermark _ _ _ _⟩
  simp [unreal_build_project, hrun, hcode]

theorem c7_failed_build_witness :
    (runIteration ⟨cfgS, 100, 5⟩
        ⟨some cfgS, 10, true, true, 101, fun _ => [], .exited 1⟩).1.last_built_revision
      = 101 :=
  (c7_failed_build ⟨cfgS, 100, 5⟩
    ⟨some cfgS, 10, true, true, 101, fun _ => [], .exited 1⟩ cfgS
    ⟨true, true, strOf "Shipping", false, true, false, false, none, false⟩ 1
    (by decide) (by decide) rfl (by decide) rfl (by decide)).2.2.2.2.2

/-- Claim C10: when a build runs and succeeds, the archive name handed
to packaging is templated from the pre-build watermark (the previously
settled revision), not from the current revision being built, and the
watermark itself moves to current_revision only in the iteration
result, after packaging. -/
theorem c10_archive_name_embeds_prebuild_watermark (st : LoopState)
    (inp : IterInput) (cfg : Config) (bs : BuildStepTrace)
    (hr : reloadConfig st.config inp.new_config = some cfg)
    (hcl : (cleanupDue st.last_cleanup_time inp.now cfg.cleanup_timeout
      && !inp.cleanup_ok) = false)
    (hch : inp.svn_changed = true)
    (hw : st.last_built_revision ≠ -1)
    (hbs : ((runIteration st inp).2.change.bind ChangeTrace.buildStep) = some bs)
    (hrun : inp.build_run = .exited 0) :
    bs.archiveName = some (buildArchiveName st.last_built_revision
      cfg.project_filename bs.buildTypeUsed)
    ∧ bs.success = true
    ∧ (runIteration st inp).1.last_built_revision = inp.current_revision := by
  rw [runIteration_changed st inp cfg hr hcl hch] at hbs ⊢
  simp only [if_neg hw] at hbs ⊢
  simp only [Option.some_bind] at hbs
  obtain ⟨h1, -, h3, -⟩ := changeDispatch_success _ _ _ _ _ hbs hrun
  exact ⟨h1, h3, changeDispatch_watermark _ _ _ _⟩

theorem c10_archive_name_embeds_prebuild_watermark_witness :
    (runIteration ⟨cfgS, 100, 5⟩
        ⟨some cfgS, 10, true, true, 101, fun _ => [], .exited 0⟩).1.last_built_revision
      = 101 :=
  (c10_archive_name_embeds_prebuild_watermark ⟨cfgS, 100, 5⟩
    ⟨some cfgS, 10, true, true, 101, fun _ => [], .exited 0⟩ cfgS
    ⟨true, true, strOf "Shipping", false, false, true, true,
      some (buildArchiveName 100 (strOf "Proj") (strOf "Shipping")), true⟩
    (by decide) (by decide) rfl (by decide) (by decide) rfl).2.2

theorem dispatchFetched_eq (cfg : Config) (w : Int) (inp : IterInput)
    (hpos : 0 < cfg.max_num_relevant_logs) (hlt : w < inp.current_revision) :
    dispatchFetched cfg w inp =
      intRangeList (max (w + 1) (inp.current_revision - cfg.max_num_relevant_logs + 1))
        inp.current_revision := by
  have hstart : revisionStart cfg.max_num_relevant_logs inp.current_revision w
      = max (w + 1) (inp.current_revision - cfg.max_num_relevant_logs + 1) := by
    unfold revisionStart numRevisions
    omega
  have hcoll : collectLogs cfg.max_num_relevant_logs inp.current_revision w = true := by
    unfold collectLogs numRevisions
    simp only [Bool.and_eq_true, decide_eq_true_eq]
    omega
  simp [dispatchFetched, hcoll, hstart]

theorem build_dump_buildTypeUsed (fn bt : Str) (logs : List Str) (rev : Int)
    (run : BuildRun) :
    (build_dump_logs_and_compact fn bt logs rev run).buildTypeUsed = bt := by
  unfold build_dump_logs_and_compact
  cases unreal_build_project run <;> rfl

/-- Claim C6: an iteration that detects a change, collects logs, and
finds the configured ignore-build keyword in one of the fetched logs
never invokes the build tool, fires the ignoring-build cue, and
advances the watermark to the current revision.  The ignore comparison
on line 470 sits in an elif behind the dev-keyword test, so the two
configured keywords must differ for the ignore branch to fire. -/
theorem c6_ignore_keyword_skips_build (st : LoopState) (inp : IterInput)
    (cfg : Config) (r : Int)
    (hr : reloadConfig st.config inp.new_config = some cfg)
    (hcl : (cleanupDue st.last_cleanup_time inp.now cfg.cleanup_timeout
      && !inp.cleanup_ok) = false)
    (hch : inp.svn_changed = true)
    (hpos : 0 < cfg.max_num_relevant_logs)
    (hw : st.last_built_revision ≠ -1)
    (hlt : st.last_built_revision < inp.current_revision)
    (hne : cfg.ignore_build ≠ cfg.make_dev_build)
    (hr1 : max (st.last_built_revision + 1)
      (inp.current_revision - cfg.max_num_relevant_logs + 1) ≤ r)
    (hr2 : r ≤ inp.current_revision)
    (hinf : cfg.ignore_build <:+: inp.svn_log r) :
    ∃ ct, (runIteration st inp).2.change = some ct
      ∧ ct.buildStep = none
      ∧ ct.ignoreCue = true
      ∧ (runIteration st inp).1.last_built_revision = inp.current_revision := by
  have hig : (dispatchFlags cfg st.last_built_revision inp).2 = true := by
    unfold dispatchFlags
    rw [evalCommands_snd_iff]
    refine ⟨?_, hne⟩
    rw [mem_dispatchFound]
    refine ⟨r, ?_, by simp [Config.all_commands], hinf⟩
    rw [dispatchFetched_eq cfg st.last_built_revision inp hpos hlt]
    exact (mem_intRangeList _ _ r).mpr ⟨hr1, hr2⟩
  rw [runIteration_changed st inp cfg hr hcl hch]
  simp only [if_neg hw]
  obtain ⟨h1, h2, -⟩ := changeDispatch_ignored cfg st.last_built_revision
    (if cleanupDue st.last_cleanup_time inp.now cfg.cleanup_timeout then inp.now
      else st.last_cleanup_time) inp hig
  exact ⟨_, rfl, h1, h2, changeDispatch_watermark _ _ _ _⟩

theorem c6_ignore_keyword_skips_build_witness :
    ∃ ct, (runIteration ⟨cfgS, 100, 5⟩
        ⟨some cfgS, 10, true, true, 103,
          fun r => if r = 102 then strOf "x #ignorebuild" else [], .exited 0⟩).2.change
      = some ct
      ∧ ct.buildStep = none
      ∧ ct.ignoreCue = true := by
  obtain ⟨ct, h1, h2, h3, -⟩ := c6_ignore_keyword_skips_build ⟨cfgS, 100, 5⟩
    ⟨some cfgS, 10, true, true, 103,
      fun r => if r = 102 then strOf "x #ignorebuild" else [], .exited 0⟩ cfgS 102
    (by decide) (by decide) rfl (by decide) (by decide) (by decide) (by decide)
    (by decide) (by decide) (by decide)
  exact ⟨ct, h1, h2, h3⟩

/-- Two-iteration scenario for the dev-build override: the first
iteration sees the dev keyword and the source mutates the held config
object in place; the second iteration's config reload fails. -/
def c3_inp1 : IterInput :=
  ⟨some cfgS, 10, true, true, 101,
    fun r => if r = 101 then strOf "x #devbuild" else [], .exited 0⟩

def c3_st1 : LoopState := (runIteration ⟨cfgS, 100, 5⟩ c3_inp1).1

def c3_inp2 : IterInput := ⟨none, 20, true, true, 102, fun _ => [], .exited 0⟩

/-- Claim C3: the dev-build override holds for the current iteration
only and the effective build type reverts to the configured one in the
following iteration whether the next reload succeeds or fails.  This is
false for the failing-reload half: line 468 mutates the held config
object in place and a failed reload (lines 398-409) keeps that object.
Below, iteration one sees the dev keyword, iteration two's reload
fails, and iteration two hands the build tool the type Development
although the configured build type is Shipping. -/
theorem c3_counterexample :
    cfgS.build_type = strOf "Shipping"
    ∧ c3_st1.config.build_type = strOf "Development"
    ∧ ((runIteration c3_st1 c3_inp2).2.change.bind ChangeTrace.buildStep).map
        BuildStepTrace.buildTypeUsed = some (strOf "Development") := by
  decide

/-- Claim C3 (amended): the dev-build override lasts until the next
successful config reload.  An iteration whose reload succeeds with a
valid snapshot, and whose collected logs do not contain that snapshot's
dev keyword, hands the build tool the snapshot's configured build type,
whatever overrides earlier iterations applied; when the reload fails,
the previously mutated snapshot, override included, stays in effect. -/
theorem c3_override_reverts_on_successful_reload (st : LoopState)
    (inp : IterInput) (nc : Config) (bs : BuildStepTrace)
    (hnc : inp.new_config = some nc) (hvalid : nc.valid = true)
    (hnodev : ∀ r : Int, ¬ (nc.make_dev_build <:+: inp.svn_log r))
    (hbs : ((runIteration st inp).2.change.bind ChangeTrace.buildStep) = some bs) :
    bs.buildTypeUsed = nc.build_type := by
  have hr : reloadConfig st.config inp.new_config = some nc := by
    simp [reloadConfig, hnc, hvalid]
  by_cases hcl : (cleanupDue st.last_cleanup_time inp.now nc.cleanup_timeout
      && !inp.cleanup_ok) = true
  · simp [runIteration, hr, hcl] at hbs
  · cases hch : inp.svn_changed
    · simp [runIteration, hr, hcl, hch] at hbs
    · rw [runIteration_changed st inp nc hr (by simpa using hcl) hch] at hbs
      simp only [Option.some_bind] at hbs
      have hdev : (dispatchFlags nc
          (if st.last_built_revision = -1 then inp.current_revision
            else st.last_built_revision) inp).1 = false := by
        unfold dispatchFlags
        rw [Bool.eq_false_iff, Ne, evalCommands_fst_iff]
        intro hmem
        rw [mem_dispatchFound] at hmem
        obtain ⟨r, -, -, hinf⟩ := hmem
        exact hnodev r hinf
      cases hig : (dispatchFlags nc
          (if st.last_built_revision = -1 then inp.current_revision
            else st.last_built_revision) inp).2
      · obtain ⟨h1, -⟩ := changeDispatch_buildStep_eq nc _ _ inp hig
        rw [h1] at hbs
        simp only [Option.some.injEq] at hbs
        subst hbs
        rw [build_dump_buildTypeUsed]
        simp [effBuildType, hdev]
      · simp [(changeDispatch_ignored nc _ _ inp hig).1] at hbs

theorem c3_override_reverts_on_successful_reload_witness :
    c3_st1.config.build_type = strOf "Development"
    ∧ (⟨true, true, strOf "Shipping", false, false, true, true,
        some (buildArchiveName 101 (strOf "Proj") (strOf "Shipping")), true⟩
        : BuildStepTrace).buildTypeUsed = cfgS.build_type :=
  ⟨by decide,
    c3_override_reverts_on_successful_reload c3_st1
      ⟨some cfgS, 20, true, true, 102, fun _ => [], .exited 0⟩ cfgS
      ⟨true, true, strOf "Shipping", false, false, true, true,
        some (buildArchiveName 101 (strOf "Proj") (strOf "Shipping")), true⟩
      rfl (by decide)
      (fun r => by
        show ¬ (cfgS.make_dev_build <:+: ([] : Str))
        decide)
      (by decide)⟩
